import Mathlib

/-!
# Depot charging prioritization engine — formal model

Verification of the charging-prioritization and metrics-summarization
routines of the TransLink energy-management repository, together with the
temperature-dependent range logic of the dashboard (`src/code.py`).

The Prioritizer and Summarizer are specified (spec §4.1, §4.2) but their
code is not under `src/` — only the dashboard shell is.  Those definitions
are therefore modelled from the spec, faithful to its words; the
temperature logic (`range_factor`, `temp_factor`, `range_km`) is embedded
directly from `src/code.py`.
-/

namespace TransLink

/-- Modelled from the spec (§3 Data Model): one `BusRecord` per bus.
`bus_id` is a stable unique identifier, `state_of_charge` a numeric
percentage, `requires_maintenance` a telemetry flag, and
`assigned_to_charge` / `dispatch_risk` are computed by the Prioritizer
each cycle. -/
structure BusRecord where
  bus_id : Nat
  state_of_charge : ℚ
  requires_maintenance : Bool
  assigned_to_charge : Bool
  dispatch_risk : Bool
deriving DecidableEq

/-- Modelled from the spec (§7 Error taxonomy): `InvalidConfiguration`
for negative or otherwise nonsensical capacity values passed to the
Prioritizer. -/
inductive PrioritizerError where
  | invalidConfiguration
deriving DecidableEq

/-- Modelled from the spec (§7 Error taxonomy): `EmptyFleet` when metrics
are requested over zero records. -/
inductive SummarizerError where
  | emptyFleet
deriving DecidableEq

/-- Modelled from the spec (§4.2): the fleet-level `Metrics` aggregate. -/
structure Metrics where
  average_soc : ℚ
  risk_count : Nat
  charger_utilization : ℚ
deriving DecidableEq

/-- The sort key relation of the Prioritizer: ascending `state_of_charge`. -/
def socLE (a b : BusRecord) : Prop :=
  a.state_of_charge ≤ b.state_of_charge

instance : DecidableRel socLE := fun a b =>
  inferInstanceAs (Decidable (a.state_of_charge ≤ b.state_of_charge))

instance : IsTotal BusRecord socLE :=
  ⟨fun a b => le_total a.state_of_charge b.state_of_charge⟩

instance : IsTrans BusRecord socLE :=
  ⟨fun _ _ _ hab hbc => le_trans hab hbc⟩

/-- Modelled from the spec (§4.1 steps 2–3, single pass after the sort):
walking the sorted list, the first `k` records get
`assigned_to_charge := true` and every later one `false`, while every
record gets `dispatch_risk := (state_of_charge < min_dispatch_soc)`,
independent of assignment.  No other field is touched. -/
def assignAndFlag (k : Nat) (min_dispatch_soc : ℚ) :
    List BusRecord → List BusRecord
  | [] => []
  | b :: bs =>
    { b with
      assigned_to_charge := decide (0 < k)
      dispatch_risk := decide (b.state_of_charge < min_dispatch_soc) } ::
    assignAndFlag (k - 1) min_dispatch_soc bs

/-- Modelled from the spec (§4.1): `prioritize` — missing from `src/`,
which holds only the dashboard shell.  Fails with `InvalidConfiguration`
when `num_chargers < 0` (spec §4.1 last paragraph); otherwise stable-sorts
the records ascending by `state_of_charge`, assigns the first
`min(num_chargers, len(records))` of them to charge, and flags dispatch
risk on every record. -/
def prioritize (records : List BusRecord) (num_chargers : Int)
    (min_dispatch_soc : ℚ) : Except PrioritizerError (List BusRecord) :=
  if num_chargers < 0 then
    .error .invalidConfiguration
  else
    .ok (assignAndFlag (min num_chargers.toNat records.length) min_dispatch_soc
      (List.insertionSort socLE records))

/-- Modelled from the spec (§4.2): `summarize` — missing from `src/`.
Fails with `EmptyFleet` on an empty fleet (mean undefined); utilization at
`num_chargers = 0` follows the documented §7 policy choice of 0% rather
than an error, uniformly for all inputs. -/
def summarize (records : List BusRecord) (num_chargers : Int) :
    Except SummarizerError Metrics :=
  if records.isEmpty then
    .error .emptyFleet
  else
    .ok
      { average_soc := (records.map (·.state_of_charge)).sum / records.length
        risk_count := records.countP (·.dispatch_risk)
        charger_utilization :=
          if num_chargers = 0 then 0
          else (min num_chargers.toNat records.length : ℚ) / num_chargers * 100 }

/-- The identity of a record apart from the two Prioritizer-computed
flags: `(bus_id, state_of_charge, requires_maintenance)`. -/
def baseData (b : BusRecord) : Nat × ℚ × Bool :=
  (b.bus_id, b.state_of_charge, b.requires_maintenance)

/-- The bus ids assigned to a charger in an output sequence, in order. -/
def assignedIds (l : List BusRecord) : List Nat :=
  (l.filter (·.assigned_to_charge)).map (·.bus_id)

/-- Overwrite the maintenance flag of a record (used to state that the
Prioritizer never consults `requires_maintenance`). -/
def setMaint (m : Bool) (b : BusRecord) : BusRecord :=
  { b with requires_maintenance := m }

/-- The worked example of spec §8: buses A(50), B(20), C(90), D(20). -/
def exRecords : List BusRecord :=
  [⟨1, 50, false, false, false⟩, ⟨2, 20, true, false, false⟩,
   ⟨3, 90, false, false, false⟩, ⟨4, 20, false, false, false⟩]

/-- Embedded from `src/code.py`, lines 131–136: the Range Status card
shows Limited when `temperature < 10 or temperature > 30`, else
Optimal. -/
inductive RangeStatus where
  | limited
  | optimal
deriving DecidableEq

/-- Embedded from `src/code.py`, lines 131–136 (`range_factor`, a value of
the the ambient-temperature slider alone). -/
def range_factor (temperature : Int) : RangeStatus :=
  if temperature < 10 ∨ temperature > 30 then .limited else .optimal

/-- Embedded from `src/code.py`, line 223:
`temp_factor = 1.0 if 15 <= temperature <= 25 else 0.7 if temperature > 30 else 0.8`. -/
def temp_factor (temperature : Int) : ℚ :=
  if 15 ≤ temperature ∧ temperature ≤ 25 then 1
  else if temperature > 30 then 7 / 10
  else 8 / 10

/-- Embedded from `src/code.py`, lines 220–225: estimated range of one bus
from its SOC, the ambient temperature and the passenger load factor. -/
def range_km (soc : ℚ) (load_factor : ℚ) (temperature : Int) : ℚ :=
  250 * (soc / 100) * temp_factor temperature * (1 - load_factor / 100 * (3 / 10))

/-! ## Helper lemmas about the flag-setting pass -/

theorem length_assignAndFlag (k : Nat) (t : ℚ) (l : List BusRecord) :
    (assignAndFlag k t l).length = l.length := by
  induction l generalizing k with
  | nil => rfl
  | cons b bs ih => simp [assignAndFlag, ih]

theorem map_baseData_assignAndFlag (k : Nat) (t : ℚ) (l : List BusRecord) :
    (assignAndFlag k t l).map baseData = l.map baseData := by
  induction l generalizing k with
  | nil => rfl
  | cons b bs ih => simp [assignAndFlag, ih, baseData]

theorem map_soc_assignAndFlag (k : Nat) (t : ℚ) (l : List BusRecord) :
    (assignAndFlag k t l).map (·.state_of_charge) =
      l.map (·.state_of_charge) := by
  induction l generalizing k with
  | nil => rfl
  | cons b bs ih => simp [assignAndFlag, ih]

theorem countP_assigned_assignAndFlag (k : Nat) (t : ℚ) (l : List BusRecord) :
    (assignAndFlag k t l).countP (·.assigned_to_charge) = min k l.length := by
  induction l generalizing k with
  | nil => simp [assignAndFlag]
  | cons b bs ih =>
    cases k with
    | zero => simpa [assignAndFlag, List.countP_cons] using ih 0
    | succ k =>
      have := ih k
      simp [assignAndFlag, List.countP_cons, this]
      omega

theorem get_assigned_assignAndFlag (k : Nat) (t : ℚ) (l : List BusRecord)
    (i : Nat) (h : i < (assignAndFlag k t l).length) :
    ((assignAndFlag k t l).get ⟨i, h⟩).assigned_to_charge = decide (i < k) := by
  induction l generalizing k i with
  | nil => simp [assignAndFlag] at h
  | cons b bs ih =>
    cases i with
    | zero => rfl
    | succ i =>
      have h' : i < (assignAndFlag (k - 1) t bs).length := by
        have := h
        simp only [assignAndFlag, List.length_cons] at this
        omega
      have hget : (assignAndFlag k t (b :: bs)).get ⟨i + 1, h⟩ =
          (assignAndFlag (k - 1) t bs).get ⟨i, h'⟩ := rfl
      rw [hget, ih (k - 1) i h']
      exact decide_eq_decide.mpr (by omega)

theorem dispatch_risk_of_mem_assignAndFlag {k : Nat} {t : ℚ}
    {l : List BusRecord} {b : BusRecord} (hb : b ∈ assignAndFlag k t l) :
    b.dispatch_risk = decide (b.state_of_charge < t) := by
  induction l generalizing k with
  | nil => simp [assignAndFlag] at hb
  | cons a as ih =>
    simp only [assignAndFlag, List.mem_cons] at hb
    rcases hb with rfl | hb
    · rfl
    · exact ih hb

theorem assigned_of_mem_assignAndFlag_zero {t : ℚ}
    {l : List BusRecord} {b : BusRecord} (hb : b ∈ assignAndFlag 0 t l) :
    b.assigned_to_charge = false := by
  induction l with
  | nil => simp [assignAndFlag] at hb
  | cons a as ih =>
    simp only [assignAndFlag, List.mem_cons] at hb
    rcases hb with rfl | hb
    · rfl
    · exact ih hb

theorem assignedIds_assignAndFlag (k : Nat) (t : ℚ) (l : List BusRecord) :
    assignedIds (assignAndFlag k t l) = (l.take k).map (·.bus_id) := by
  induction l generalizing k with
  | nil => simp [assignAndFlag, assignedIds]
  | cons b bs ih =>
    cases k with
    | zero => simpa [assignAndFlag, assignedIds, List.filter_cons] using ih 0
    | succ k => simpa [assignAndFlag, assignedIds, List.filter_cons] using ih k

theorem filter_soc_map_baseData_assignAndFlag (k : Nat) (t v : ℚ)
    (l : List BusRecord) :
    ((assignAndFlag k t l).filter (fun b => b.state_of_charge = v)).map baseData =
      (l.filter (fun b => b.state_of_charge = v)).map baseData := by
  induction l generalizing k with
  | nil => rfl
  | cons b bs ih =>
    by_cases hbv : b.state_of_charge = v <;>
      simp [assignAndFlag, List.filter_cons, hbv, ih, baseData]

/-! ## Helper lemmas about the stable sort -/

theorem filter_soc_orderedInsert (v : ℚ) (a : BusRecord) (l : List BusRecord) :
    (List.orderedInsert socLE a l).filter (fun b => b.state_of_charge = v) =
      if a.state_of_charge = v then
        a :: l.filter (fun b => b.state_of_charge = v)
      else l.filter (fun b => b.state_of_charge = v) := by
  induction l with
  | nil =>
    by_cases hav : a.state_of_charge = v <;>
      simp [List.orderedInsert, List.filter_cons, hav]
  | cons b bs ih =>
    by_cases hab : socLE a b
    · by_cases hav : a.state_of_charge = v <;>
        simp [List.orderedInsert, if_pos hab, List.filter_cons, hav]
    · by_cases hav : a.state_of_charge = v
      · have hbv : ¬ b.state_of_charge = v := by
          intro hb
          exact hab (le_of_eq (hav.trans hb.symm))
        simp [List.orderedInsert, if_neg hab, List.filter_cons, hav, hbv, ih]
      · by_cases hbv : b.state_of_charge = v <;>
          simp [List.orderedInsert, if_neg hab, List.filter_cons, hav, hbv, ih]

theorem filter_soc_insertionSort (v : ℚ) (l : List BusRecord) :
    (List.insertionSort socLE l).filter (fun b => b.state_of_charge = v) =
      l.filter (fun b => b.state_of_charge = v) := by
  induction l with
  | nil => rfl
  | cons b bs ih =>
    rw [List.insertionSort, filter_soc_orderedInsert]
    by_cases hbv : b.state_of_charge = v <;> simp [List.filter_cons, hbv, ih]

theorem sorted_socLE_iff (l : List BusRecord) :
    List.Sorted socLE l ↔
      (l.map (·.state_of_charge)).Pairwise (· ≤ ·) := by
  rw [List.Sorted, List.pairwise_map]
  exact Iff.rfl

/-! ## Helper lemmas about maintenance-flag independence -/

theorem insertionSort_map_setMaint (m : Bool) (l : List BusRecord) :
    List.insertionSort socLE (l.map (setMaint m)) =
      (List.insertionSort socLE l).map (setMaint m) :=
  (List.map_insertionSort socLE socLE (setMaint m) l
    (fun _ _ _ _ => Iff.rfl)).symm

theorem assignAndFlag_map_setMaint (k : Nat) (t : ℚ) (m : Bool)
    (l : List BusRecord) :
    assignAndFlag k t (l.map (setMaint m)) =
      (assignAndFlag k t l).map (setMaint m) := by
  induction l generalizing k with
  | nil => rfl
  | cons b bs ih => simp [assignAndFlag, setMaint, ih]

/-! ## Unfolding the guard of prioritize -/

theorem prioritize_eq_ok (r : List BusRecord) (n : Int) (t : ℚ) (h : 0 ≤ n) :
    prioritize r n t =
      .ok (assignAndFlag (min n.toNat r.length) t
        (List.insertionSort socLE r)) := by
  unfold prioritize
  rw [if_neg (not_lt.mpr h)]

/-! ## Claim theorems -/

/-- Claim C1: for every non-empty input and every `num_chargers ≥ 0`, the
output of `prioritize` contains exactly `min(num_chargers, len(records))`
records with `assigned_to_charge = true` — precisely the first that many
records in sorted order — and this count never exceeds
`min(num_chargers, total bus count)`. -/
theorem C1_assignment_count (r : List BusRecord) (n : Int) (t : ℚ)
    (hr : r ≠ []) (hn : 0 ≤ n) :
    ∃ out, prioritize r n t = .ok out ∧
      out.countP (·.assigned_to_charge) = min n.toNat r.length ∧
      (∀ i, ∀ h : i < out.length,
        ((out.get ⟨i, h⟩).assigned_to_charge = true ↔ i < min n.toNat r.length)) ∧
      out.countP (·.assigned_to_charge) ≤ min n.toNat r.length := by
  refine ⟨_, prioritize_eq_ok r n t hn, ?_, ?_, ?_⟩
  · rw [countP_assigned_assignAndFlag, List.length_insertionSort]
    omega
  · intro i h
    rw [get_assigned_assignAndFlag]
    simp
  · rw [countP_assigned_assignAndFlag, List.length_insertionSort]
    omega

/-- Witness for C1 at the spec §8 example with two chargers. -/
theorem C1_assignment_count_witness :
    ∃ out, prioritize exRecords 2 60 = .ok out ∧
      out.countP (·.assigned_to_charge) = min (Int.toNat 2) exRecords.length ∧
      (∀ i, ∀ h : i < out.length,
        ((out.get ⟨i, h⟩).assigned_to_charge = true ↔
          i < min (Int.toNat 2) exRecords.length)) ∧
      out.countP (·.assigned_to_charge) ≤ min (Int.toNat 2) exRecords.length :=
  C1_assignment_count exRecords 2 60 (by decide) (by decide)

/-- Claim C2: in the output of `prioritize`, `dispatch_risk = true` iff the
record's `state_of_charge` is strictly below `min_dispatch_soc`,
independently of charger assignment. -/
theorem C2_dispatch_risk (r : List BusRecord) (n : Int) (t : ℚ)
    (hn : 0 ≤ n) :
    ∃ out, prioritize r n t = .ok out ∧
      ∀ b ∈ out, (b.dispatch_risk = true ↔ b.state_of_charge < t) := by
  refine ⟨_, prioritize_eq_ok r n t hn, fun b hb => ?_⟩
  rw [dispatch_risk_of_mem_assignAndFlag hb]
  simp

/-- Witness for C2 at the spec §8 example. -/
theorem C2_dispatch_risk_witness :
    ∃ out, prioritize exRecords 2 60 = .ok out ∧
      ∀ b ∈ out, (b.dispatch_risk = true ↔ b.state_of_charge < 60) :=
  C2_dispatch_risk exRecords 2 60 (by decide)

/-- Claim C3: the output of `prioritize` is sorted ascending by
`state_of_charge`, and the sort is stable: for every charge value `v`, the
records carrying `v` appear in the output in exactly their input order. -/
theorem C3_sorted_stable (r : List BusRecord) (n : Int) (t : ℚ)
    (hn : 0 ≤ n) :
    ∃ out, prioritize r n t = .ok out ∧
      List.Sorted socLE out ∧
      ∀ v : ℚ, (out.filter (fun b => b.state_of_charge = v)).map baseData =
        (r.filter (fun b => b.state_of_charge = v)).map baseData := by
  refine ⟨_, prioritize_eq_ok r n t hn, ?_, fun v => ?_⟩
  · rw [sorted_socLE_iff, map_soc_assignAndFlag, ← sorted_socLE_iff]
    exact List.sorted_insertionSort socLE r
  · rw [filter_soc_map_baseData_assignAndFlag, filter_soc_insertionSort]

/-- Witness for C3 at the spec §8 example (where B and D tie at 20). -/
theorem C3_sorted_stable_witness :
    ∃ out, prioritize exRecords 2 60 = .ok out ∧
      List.Sorted socLE out ∧
      ∀ v : ℚ, (out.filter (fun b => b.state_of_charge = v)).map baseData =
        (exRecords.filter (fun b => b.state_of_charge = v)).map baseData :=
  C3_sorted_stable exRecords 2 60 (by decide)

/-- Claim C4: `prioritize` is deterministic — two calls on the same
records, capacity and threshold produce identical output sequences,
including both computed flags on every record. -/
theorem C4_deterministic (r : List BusRecord) (n : Int) (t : ℚ)
    (o1 o2 : Except PrioritizerError (List BusRecord))
    (h1 : prioritize r n t = o1) (h2 : prioritize r n t = o2) :
    o1 = o2 :=
  h1.symm.trans h2

/-- Witness for C4 at the spec §8 example. -/
theorem C4_deterministic_witness :
    prioritize exRecords 2 60 = prioritize exRecords 2 60 :=
  C4_deterministic exRecords 2 60
    (prioritize exRecords 2 60) (prioritize exRecords 2 60) rfl rfl

/-- Claim C5: with records and threshold fixed, growing the capacity from
`c1` to `c2 ≥ c1` only grows the set of bus ids assigned to charge. -/
theorem C5_monotone (r : List BusRecord) (t : ℚ) (c1 c2 : Int)
    (h0 : 0 ≤ c1) (h12 : c1 ≤ c2) :
    ∃ o1 o2, prioritize r c1 t = .ok o1 ∧ prioritize r c2 t = .ok o2 ∧
      ∀ id ∈ assignedIds o1, id ∈ assignedIds o2 := by
  refine ⟨_, _, prioritize_eq_ok r c1 t h0,
    prioritize_eq_ok r c2 t (le_trans h0 h12), fun id hid => ?_⟩
  rw [assignedIds_assignAndFlag] at hid ⊢
  have hk : min c1.toNat r.length ≤ min c2.toNat r.length := by
    have := Int.toNat_le_toNat h12
    omega
  obtain ⟨b, hb, rfl⟩ := List.mem_map.mp hid
  refine List.mem_map.mpr ⟨b, ?_, rfl⟩
  have htt : ((List.insertionSort socLE r).take (min c2.toNat r.length)).take
      (min c1.toNat r.length) =
      (List.insertionSort socLE r).take (min c1.toNat r.length) := by
    rw [List.take_take, Nat.min_eq_left hk]
  exact List.mem_of_mem_take (htt ▸ hb)

/-- Witness for C5 at the spec §8 example with capacities 1 and 3. -/
theorem C5_monotone_witness :
    ∃ o1 o2, prioritize exRecords 1 60 = .ok o1 ∧
      prioritize exRecords 3 60 = .ok o2 ∧
      ∀ id ∈ assignedIds o1, id ∈ assignedIds o2 :=
  C5_monotone exRecords 60 1 3 (by decide) (by decide)

/-- Claim C6: `prioritize` leaves `bus_id`, `state_of_charge` and
`requires_maintenance` of every record unchanged (the output carries
exactly the input records' base data, in sorted order, with no further
reordering), and the maintenance flag is never consulted: overwriting it
on every input record commutes with `prioritize`, so maintenance buses are
excluded neither from assignment nor from risk computation. -/
theorem C6_frame (r : List BusRecord) (n : Int) (t : ℚ) (hn : 0 ≤ n) :
    ∃ out, prioritize r n t = .ok out ∧
      out.map baseData = (List.insertionSort socLE r).map baseData ∧
      (out.map baseData).Perm (r.map baseData) ∧
      ∀ m : Bool, prioritize (r.map (setMaint m)) n t =
        .ok (out.map (setMaint m)) := by
  refine ⟨_, prioritize_eq_ok r n t hn, map_baseData_assignAndFlag _ _ _,
    ?_, fun m => ?_⟩
  · rw [map_baseData_assignAndFlag]
    exact (List.perm_insertionSort socLE r).map baseData
  · rw [prioritize_eq_ok (r.map (setMaint m)) n t hn, List.length_map,
      insertionSort_map_setMaint, assignAndFlag_map_setMaint]

/-- Witness for C6 at the spec §8 example. -/
theorem C6_frame_witness :
    ∃ out, prioritize exRecords 2 60 = .ok out ∧
      out.map baseData = (List.insertionSort socLE exRecords).map baseData ∧
      (out.map baseData).Perm (exRecords.map baseData) ∧
      ∀ m : Bool, prioritize (exRecords.map (setMaint m)) 2 60 =
        .ok (out.map (setMaint m)) :=
  C6_frame exRecords 2 60 (by decide)

/-- Claim C7: `summarize` returns the arithmetic mean of `state_of_charge`
as `average_soc` on a non-empty fleet, and fails with `EmptyFleet` on an
empty one — no silent default, no partial result. -/
theorem C7_average (r : List BusRecord) (n : Int) :
    (r ≠ [] → ∃ m, summarize r n = .ok m ∧
      m.average_soc = (r.map (·.state_of_charge)).sum / r.length) ∧
    (r = [] → summarize r n = .error .emptyFleet) := by
  constructor
  · intro hr
    refine ⟨{ average_soc := (r.map (·.state_of_charge)).sum / r.length
              risk_count := r.countP (·.dispatch_risk)
              charger_utilization :=
                if n = 0 then 0
                else (min n.toNat r.length : ℚ) / n * 100 }, ?_, rfl⟩
    unfold summarize
    rw [if_neg (by simpa [List.isEmpty_iff] using hr)]
  · intro hr
    subst hr
    rfl

/-- Witness for C7 at the spec §8 example (mean 45) and the empty fleet. -/
theorem C7_average_witness :
    (exRecords ≠ [] → ∃ m, summarize exRecords 2 = .ok m ∧
      m.average_soc = (exRecords.map (·.state_of_charge)).sum / exRecords.length) ∧
    (exRecords = [] → summarize exRecords 2 = .error .emptyFleet) :=
  C7_average exRecords 2

/-- Claim C8: on a non-empty fleet, `summarize` reports
`charger_utilization = min(num_chargers, len(records)) / num_chargers * 100`
whenever `num_chargers > 0`, and uniformly reports the documented constant
0 whenever `num_chargers = 0`. -/
theorem C8_utilization (r : List BusRecord) (n : Int) (hr : r ≠ []) :
    (0 < n → ∃ m, summarize r n = .ok m ∧
      m.charger_utilization = (min n.toNat r.length : ℚ) / (n : ℚ) * 100) ∧
    (n = 0 → ∃ m, summarize r n = .ok m ∧ m.charger_utilization = 0) := by
  have hne : ¬ (r.isEmpty = true) := by simpa [List.isEmpty_iff] using hr
  constructor
  · intro hn
    refine ⟨_, by unfold summarize; rw [if_neg hne], ?_⟩
    show (if n = 0 then 0 else (min n.toNat r.length : ℚ) / (n : ℚ) * 100) = _
    rw [if_neg (by omega)]
  · intro hn
    subst hn
    refine ⟨_, by unfold summarize; rw [if_neg hne], ?_⟩
    show (if (0 : Int) = 0 then (0 : ℚ)
      else (min (Int.toNat 0) r.length : ℚ) / ((0 : Int) : ℚ) * 100) = 0
    rw [if_pos rfl]

/-- Witness for C8 at the spec §8 example with zero chargers. -/
theorem C8_utilization_witness :
    (0 < (0 : Int) → ∃ m, summarize exRecords 0 = .ok m ∧
      m.charger_utilization =
        (min (Int.toNat 0) exRecords.length : ℚ) / ((0 : Int) : ℚ) * 100) ∧
    ((0 : Int) = 0 → ∃ m, summarize exRecords 0 = .ok m ∧
      m.charger_utilization = 0) :=
  C8_utilization exRecords 0 (by decide)

/-- Claim C9: a negative `num_chargers` makes `prioritize` fail with
`InvalidConfiguration`, while `num_chargers = 0` is accepted: every output
record has `assigned_to_charge = false` and `dispatch_risk` computed
normally. -/
theorem C9_invalid_configuration (r : List BusRecord) (n : Int) (t : ℚ) :
    (n < 0 → prioritize r n t = .error .invalidConfiguration) ∧
    ∃ out, prioritize r 0 t = .ok out ∧
      ∀ b ∈ out, b.assigned_to_charge = false ∧
        (b.dispatch_risk = true ↔ b.state_of_charge < t) := by
  refine ⟨fun hn => ?_, ?_⟩
  · unfold prioritize
    rw [if_pos hn]
  · refine ⟨_, prioritize_eq_ok r 0 t le_rfl, fun b hb => ?_⟩
    rw [show min (Int.toNat 0) r.length = 0 by simp] at hb
    refine ⟨assigned_of_mem_assignAndFlag_zero hb, ?_⟩
    rw [dispatch_risk_of_mem_assignAndFlag hb]
    simp

/-- Witness for C9 at the spec §8 example with capacity −1 and 0. -/
theorem C9_invalid_configuration_witness :
    ((-1 : Int) < 0 → prioritize exRecords (-1) 60 =
      .error .invalidConfiguration) ∧
    ∃ out, prioritize exRecords 0 60 = .ok out ∧
      ∀ b ∈ out, b.assigned_to_charge = false ∧
        (b.dispatch_risk = true ↔ b.state_of_charge < 60) :=
  C9_invalid_configuration exRecords (-1) 60

/-- Claim C10: the Range Status card is a total function of the ambient
temperature alone — Limited exactly when `t < 10` or `t > 30`, Optimal on
all of `[10, 30]` — while the per-bus range applies temperature factor 1
only on `[15, 25]`, `7/10` above 30, and `8/10` otherwise; hence on
`(25, 30]` the status reads Optimal while the estimated range is already
derated to `8/10` of its mild-weather value. -/
theorem C10_range_status (t : Int) :
    (range_factor t = .limited ↔ (t < 10 ∨ 30 < t)) ∧
    (range_factor t = .optimal ↔ (10 ≤ t ∧ t ≤ 30)) ∧
    (temp_factor t = 1 ↔ (15 ≤ t ∧ t ≤ 25)) ∧
    (30 < t → temp_factor t = 7 / 10) ∧
    (¬ (15 ≤ t ∧ t ≤ 25) → ¬ 30 < t → temp_factor t = 8 / 10) ∧
    (25 < t → t ≤ 30 → range_factor t = .optimal ∧
      ∀ soc load : ℚ, range_km soc load t = 8 / 10 * range_km soc load 20) := by
  refine ⟨?_, ?_, ?_, ?_, ?_, ?_⟩
  · unfold range_factor
    split_ifs with h
    · exact iff_of_true rfl h
    · exact iff_of_false (by simp) h
  · unfold range_factor
    split_ifs with h
    · exact iff_of_false (by simp) (by omega)
    · exact iff_of_true rfl (by omega)
  · unfold temp_factor
    split_ifs with h1 h2
    · exact iff_of_true rfl h1
    · exact iff_of_false (by norm_num) h1
    · exact iff_of_false (by norm_num) h1
  · intro h
    unfold temp_factor
    rw [if_neg (by omega), if_pos h]
  · intro h1 h2
    unfold temp_factor
    rw [if_neg h1, if_neg h2]
  · intro h1 h2
    refine ⟨by unfold range_factor; rw [if_neg (by omega)], fun soc load => ?_⟩
    unfold range_km
    rw [show temp_factor t = 8 / 10 by
        unfold temp_factor; rw [if_neg (by omega), if_neg (by omega)],
      show temp_factor 20 = 1 by unfold temp_factor; rw [if_pos (by omega)]]
    ring

/-- Witness for C10 at 28 °C, inside the Optimal-but-derated window. -/
theorem C10_range_status_witness :
    range_factor 28 = .optimal ∧ temp_factor 28 = 8 / 10 ∧
    range_km 50 60 28 = 8 / 10 * range_km 50 60 20 :=
  ⟨((C10_range_status 28).2.2.2.2.2 (by decide) (by decide)).1,
   (C10_range_status 28).2.2.2.2.1 (by decide) (by decide),
   ((C10_range_status 28).2.2.2.2.2 (by decide) (by decide)).2 50 60⟩

end TransLink
